import Mathlib

/-!
Verification of the BetCode marketplace authentication core.

Shallow embedding of the credential-hashing, verification-token and
authorization-gate code (`auth.ts` / `schema.ts` / `storage.ts` /
`routes.ts`).  Node `Buffer`s are modelled as `List Nat` of bytes,
timestamps as milliseconds-since-epoch `Nat`, and the `scrypt` key
derivation as an explicit function parameter (it is deterministic in the
password and salt).  JavaScript exceptions are modelled by an explicit
`thrown` constructor.
-/

namespace BetCode

/-- Lower-case hex digit for a nibble, as produced by
`Buffer.toString("hex")` (48 = code of the zero digit, 97 = code of the
letter a). -/
def hexDigit (n : Nat) : Char :=
  if n < 10 then Char.ofNat (48 + n) else Char.ofNat (87 + n)

/-- Hex value of a character, as accepted by `Buffer.from(s, "hex")`. -/
def hexCharVal (c : Char) : Option Nat :=
  if 48 ≤ c.toNat ∧ c.toNat ≤ 57 then some (c.toNat - 48)
  else if 97 ≤ c.toNat ∧ c.toNat ≤ 102 then some (c.toNat - 87)
  else if 65 ≤ c.toNat ∧ c.toNat ≤ 70 then some (c.toNat - 55)
  else none

/-- Character list of the hex encoding of a byte list
(`Buffer.toString("hex")`). -/
def hexCharsOfBytes : List Nat → List Char
  | [] => []
  | b :: bs => hexDigit (b / 16) :: hexDigit (b % 16) :: hexCharsOfBytes bs

/-- `buf.toString("hex")`. -/
def toHex (bs : List Nat) : String := ⟨hexCharsOfBytes bs⟩

/-- Decode hex pairs; `Buffer.from(s, "hex")` stops at the first invalid
pair and drops a trailing odd character. -/
def hexDecodeChars : List Char → List Nat
  | c1 :: c2 :: rest =>
    match hexCharVal c1, hexCharVal c2 with
    | some h, some l => (16 * h + l) :: hexDecodeChars rest
    | _, _ => []
  | _ => []

/-- `Buffer.from(s, "hex")`. -/
def bufferFromHex (s : String) : List Nat := hexDecodeChars s.data

/-- Accumulator recursion behind `String.prototype.split` with a
one-character separator. -/
def splitCharAux (sep : Char) : List Char → List Char → List (List Char)
  | [], acc => [acc.reverse]
  | c :: cs, acc =>
    if c = sep then acc.reverse :: splitCharAux sep cs []
    else splitCharAux sep cs (c :: acc)

/-- JavaScript `s.split(sep)` for a single-character separator. -/
def jsSplit (s : String) (sep : Char) : List String :=
  (splitCharAux sep s.data []).map fun l => ⟨l⟩

/-- Result of a JavaScript computation that can throw. -/
inductive CompareResult where
  | ok (value : Bool)
  | thrown (message : String)
deriving DecidableEq, Repr

/-- Node `crypto.timingSafeEqual`: throws a `RangeError` when the two
buffers have different byte lengths, otherwise returns their equality. -/
def timingSafeEqual (a b : List Nat) : CompareResult :=
  if a.length = b.length then .ok (a == b)
  else .thrown "RangeError: Input buffers must have the same byte length"

/-- `hashPassword` from `auth.ts`: the fresh 16 random salt bytes drawn by
`randomBytes(16)` are passed explicitly; the function hex-encodes them,
derives a key with scrypt, and returns `hex(key) ++ "." ++ salt`. -/
def hashPassword (scryptFn : String → String → List Nat)
    (password : String) (saltBytes : List Nat) : String :=
  let salt := toHex saltBytes
  toHex (scryptFn password salt) ++ "." ++ salt

/-- `comparePasswords` from `auth.ts`: splits the stored verifier at the
dots, takes the first two parts as hashed key and salt
(`const [hashed, salt] = stored.split(".")`), re-derives and compares in
constant time.  When the verifier holds no dot, `salt` is `undefined` and
the `scrypt` call throws a `TypeError`. -/
def comparePasswords (scryptFn : String → String → List Nat)
    (supplied stored : String) : CompareResult :=
  match jsSplit stored '.' with
  | [] => .thrown "TypeError: The salt argument must be of type string"
  | [_hashed] => .thrown "TypeError: The salt argument must be of type string"
  | hashed :: salt :: _ =>
    let hashedBuf := bufferFromHex hashed
    let suppliedBuf := scryptFn supplied salt
    timingSafeEqual hashedBuf suppliedBuf

/-- Scrypt stand-in used by the concrete witnesses: a short key derived
from the password length. -/
def scryptDemo (p : String) (_salt : String) : List Nat :=
  List.replicate 4 (p.length % 256)

/-- A row of the `users` table (`schema.ts`).  `bankDetails` is an opaque
JSON blob modelled as a string; timestamps are milliseconds since the
epoch. -/
structure User where
  id : Nat
  username : String
  email : String
  password : String
  fullName : Option String
  country : String
  isAdmin : Bool
  isEmailVerified : Bool
  verificationToken : Option String
  verificationTokenExpiry : Option Nat
  bankDetails : Option String
  createdAt : Nat
deriving DecidableEq, Repr

/-- The output type of `insertUserSchema.parse` (`schema.ts`):
`createInsertSchema(users).omit(...)` strips `id`, `isAdmin`,
`isEmailVerified`, `verificationToken`, `verificationTokenExpiry` and
`createdAt`, and zod objects drop unknown keys, so a parsed registration
body can only carry these fields. -/
structure InsertUser where
  username : String
  email : String
  password : String
  fullName : Option String
  country : String
  bankDetails : Option String
deriving DecidableEq, Repr

/-- `DatabaseStorage.createUser` (`storage.ts`): inserts the parsed data
with `isAdmin` overwritten to `false`; the omitted columns take their
database defaults (`isEmailVerified` false, both verification columns
NULL, `createdAt` now). -/
def createUser (iu : InsertUser) (newId now : Nat) : User :=
  { id := newId
    username := iu.username
    email := iu.email
    password := iu.password
    fullName := iu.fullName
    country := iu.country
    isAdmin := false
    isEmailVerified := false
    verificationToken := none
    verificationTokenExpiry := none
    bankDetails := iu.bankDetails
    createdAt := now }

/-- A `Partial<User>` request body as accepted verbatim by the admin
route `PATCH /api/admin/users/:id`: every field may be absent; nullable
columns may also be set to null (`Option (Option _)`). -/
structure UserPatch where
  username : Option String := none
  email : Option String := none
  password : Option String := none
  fullName : Option (Option String) := none
  country : Option String := none
  isAdmin : Option Bool := none
  isEmailVerified : Option Bool := none
  verificationToken : Option (Option String) := none
  verificationTokenExpiry : Option (Option Nat) := none
  bankDetails : Option (Option String) := none
deriving DecidableEq, Repr

/-- `DatabaseStorage.updateUser` applied to an arbitrary partial body:
each present field overwrites the stored column. -/
def applyUserPatch (u : User) (p : UserPatch) : User :=
  { id := u.id
    username := p.username.getD u.username
    email := p.email.getD u.email
    password := p.password.getD u.password
    fullName := p.fullName.getD u.fullName
    country := p.country.getD u.country
    isAdmin := p.isAdmin.getD u.isAdmin
    isEmailVerified := p.isEmailVerified.getD u.isEmailVerified
    verificationToken := p.verificationToken.getD u.verificationToken
    verificationTokenExpiry := p.verificationTokenExpiry.getD u.verificationTokenExpiry
    bankDetails := p.bankDetails.getD u.bankDetails
    createdAt := u.createdAt }

/-- The spec's invariant on one record: the verification token and its
expiry are null together. -/
def tokenExpirySynced (u : User) : Bool :=
  u.verificationToken.isNone == u.verificationTokenExpiry.isNone

/-- An admin PATCH body keeps the token/expiry pairing when it either
omits both verification columns or sets both with matching nullness. -/
def patchTokenSynced (p : UserPatch) : Bool :=
  match p.verificationToken, p.verificationTokenExpiry with
  | none, none => true
  | some t, some e => t.isNone == e.isNone
  | _, _ => false

/-- `generateVerificationToken` (`auth.ts`): hex encoding of the 32
random bytes drawn by `crypto.randomBytes(32)`, passed explicitly. -/
def generateVerificationToken (randomBytes32 : List Nat) : String :=
  toHex randomBytes32

/-- The fixed validity window: `24 * 60 * 60 * 1000` milliseconds, as
written at both issuance sites. -/
def tokenExpiryWindowMs : Nat := 24 * 60 * 60 * 1000

/-- Token issuance as a pair, as performed by `/api/register` and
`/api/resend-verification`: a fresh token and
`Date.now() + 24 * 60 * 60 * 1000`. -/
def issueVerification (randomBytes32 : List Nat) (now : Nat) : String × Nat :=
  (generateVerificationToken randomBytes32, now + tokenExpiryWindowMs)

/-- The `storage.updateUser` call of `/api/register`: stores the fresh
token, its expiry and `isEmailVerified: false`. -/
def registerTokenUpdate (u : User) (token : String) (now : Nat) : User :=
  { u with
    verificationToken := some token
    verificationTokenExpiry := some (now + tokenExpiryWindowMs)
    isEmailVerified := false }

/-- The `storage.updateUser` call of `/api/resend-verification`: stores
the fresh token and its expiry. -/
def resendTokenUpdate (u : User) (token : String) (now : Nat) : User :=
  { u with
    verificationToken := some token
    verificationTokenExpiry := some (now + tokenExpiryWindowMs) }

/-- The `storage.updateUser` call of `/verify-email` on success: marks
the email verified and clears the token pair. -/
def verifyEmailUpdate (u : User) : User :=
  { u with
    isEmailVerified := true
    verificationToken := none
    verificationTokenExpiry := none }

/-- `PATCH /api/users/profile`: only `fullName` and `bankDetails` are
copied from the body (fields absent from the body are left alone). -/
def profileUpdate (u : User) (fullName? bankDetails? : Option (Option String)) :
    User :=
  { u with
    fullName := fullName?.getD u.fullName
    bankDetails := bankDetails?.getD u.bankDetails }

/-- `userWithoutPassword`: the shape every user-returning route sends
after `const { password, ...userWithoutPassword } = user`.  There is no
password field in this type. -/
structure UserResponse where
  id : Nat
  username : String
  email : String
  fullName : Option String
  country : String
  isAdmin : Bool
  isEmailVerified : Bool
  verificationToken : Option String
  verificationTokenExpiry : Option Nat
  bankDetails : Option String
  createdAt : Nat
deriving DecidableEq, Repr

/-- The destructuring `const { password, ...userWithoutPassword } = u`. -/
def stripPassword (u : User) : UserResponse :=
  { id := u.id
    username := u.username
    email := u.email
    fullName := u.fullName
    country := u.country
    isAdmin := u.isAdmin
    isEmailVerified := u.isEmailVerified
    verificationToken := u.verificationToken
    verificationTokenExpiry := u.verificationTokenExpiry
    bankDetails := u.bankDetails
    createdAt := u.createdAt }

/-- The outcome passed to `done` by the passport `LocalStrategy`
callback (`auth.ts`). -/
inductive StrategyOutcome where
  | failure (message : String)
  | success (user : User)
  | errored (message : String)
deriving DecidableEq, Repr

/-- The `LocalStrategy` verify callback: looks the identity up by
handle; if absent, or if `comparePasswords` returns false, fails with the
generic message; a thrown comparison error is caught and forwarded as
`done(error)`. -/
def localStrategy (scryptFn : String → String → List Nat)
    (lookup : Option User) (password : String) : StrategyOutcome :=
  match lookup with
  | none => .failure "Invalid username or password"
  | some user =>
    match comparePasswords scryptFn password user.password with
    | .thrown e => .errored e
    | .ok false => .failure "Invalid username or password"
    | .ok true => .success user

/-- A login request body after JSON parsing. -/
structure LoginCreds where
  username : String
  password : String
deriving DecidableEq, Repr

/-- `loginSchema` (`schema.ts`): username at least 3 characters,
password at least 6. -/
def loginCredsValid (c : LoginCreds) : Bool :=
  3 ≤ c.username.length && 6 ≤ c.password.length

/-- Observable outcome of `POST /api/login`. -/
inductive LoginResult where
  | serverError (message : String)
  | rejected (status : Nat) (message : String)
  | success (body : UserResponse)
deriving DecidableEq, Repr

/-- `POST /api/login` (`auth.ts`): zod-validates the body, runs the
local strategy, and answers 401 with `info.message || "Invalid
credentials"` on failure or the password-stripped user on success. -/
def loginRoute (scryptFn : String → String → List Nat)
    (lookup : Option User) (creds : LoginCreds) : LoginResult :=
  if loginCredsValid creds then
    match localStrategy scryptFn lookup creds.password with
    | .errored e => .serverError e
    | .failure msg =>
        .rejected 401 (if msg.isEmpty then "Invalid credentials" else msg)
    | .success user => .success (stripPassword user)
  else
    .rejected 400 "Validation error"

/-- `GET /api/user`: 401 when the session is not authenticated,
otherwise the password-stripped current user. -/
def currentUserHandler (isAuth : Bool) (u : User) : Nat × Option UserResponse :=
  if !isAuth then (401, none) else (200, some (stripPassword u))

/-- Response of `POST /api/register`. -/
structure RegisterResult where
  status : Nat
  body : Option UserResponse
  message : String
deriving DecidableEq, Repr

/-- `POST /api/register` (`auth.ts`): rejects duplicate username or
email, otherwise creates the user with the hashed password, then stores a
fresh verification token pair; responds 201 with the password-stripped
created user.  Returns the response together with the stored record after
the token update. -/
def registerHandler (scryptFn : String → String → List Nat)
    (iu : InsertUser) (existingByUsername existingByEmail : Option User)
    (tokenBytes saltBytes : List Nat) (newId now : Nat) :
    RegisterResult × Option User :=
  match existingByUsername with
  | some _ => (⟨400, none, "Username already exists"⟩, none)
  | none =>
    match existingByEmail with
    | some _ => (⟨400, none, "Email already exists"⟩, none)
    | none =>
      let token := generateVerificationToken tokenBytes
      let created :=
        createUser { iu with password := hashPassword scryptFn iu.password saltBytes }
          newId now
      let updated := registerTokenUpdate created token now
      (⟨201, some (stripPassword created),
         "Account created successfully. Please check your email to verify your account."⟩,
       some updated)

/-- Response of `POST /api/resend-verification`, with the stored user
record after the call. -/
structure ResendResult where
  status : Nat
  message : String
  user : User
deriving DecidableEq, Repr

/-- `POST /api/resend-verification` (`auth.ts`): 401 when not logged in,
400 when the email is already verified (before any token is generated),
otherwise stores a fresh token pair and answers 200. -/
def resendVerificationHandler (isAuth : Bool) (u : User)
    (tokenBytes : List Nat) (now : Nat) : ResendResult :=
  if !isAuth then
    ⟨401, "You must be logged in to request a verification email", u⟩
  else if u.isEmailVerified then
    ⟨400, "Your email is already verified", u⟩
  else
    let token := generateVerificationToken tokenBytes
    ⟨200, "Verification email sent successfully. Please check your inbox.",
      resendTokenUpdate u token now⟩

/-- Response of `GET /verify-email`: HTTP status, the page headline, and
the updated record when `storage.updateUser` was called. -/
structure VerifyResult where
  status : Nat
  page : String
  updatedUser : Option User
deriving DecidableEq, Repr

/-- `GET /verify-email` (`auth.ts`): 400 when the token query parameter
is missing, 404 when no identity carries the token, 400 with the expired
page when the stored expiry is strictly before now, otherwise marks the
first matching identity verified and clears the token pair. -/
def verifyEmailHandler (tokenQ : Option String) (found : List User)
    (now : Nat) : VerifyResult :=
  match tokenQ with
  | none => ⟨400, "Invalid Verification Link", none⟩
  | some _token =>
    match found with
    | [] => ⟨404, "Invalid Verification Link", none⟩
    | user :: _ =>
      match user.verificationTokenExpiry with
      | some expiry =>
        if expiry < now then ⟨400, "Verification Link Expired", none⟩
        else ⟨200, "Email Verified Successfully!", some (verifyEmailUpdate user)⟩
      | none => ⟨200, "Email Verified Successfully!", some (verifyEmailUpdate user)⟩

/-- Outcome of an Express middleware gate. -/
inductive GateResult where
  | proceed
  | reject (status : Nat) (message : String)
deriving DecidableEq, Repr

/-- `requireAuth` (`auth.ts`): 401 Unauthorized unless the session is
authenticated. -/
def requireAuth (isAuth : Bool) : GateResult :=
  if !isAuth then .reject 401 "Unauthorized" else .proceed

/-- `requireAdmin` (`auth.ts`): 403 Forbidden unless the session is
authenticated and the attached identity has the administrator flag. -/
def requireAdmin (isAuth : Bool) (u : User) : GateResult :=
  if !isAuth || !u.isAdmin then .reject 403 "Forbidden" else .proceed

/-- `PATCH /api/users/profile`: applies the allowed updates and answers
with the password-stripped updated user. -/
def profileUpdateHandler (u : User)
    (fullName? bankDetails? : Option (Option String)) :
    Nat × Option UserResponse :=
  (200, some (stripPassword (profileUpdate u fullName? bankDetails?)))

/-- Lower-case hexadecimal digit predicate (codes of 0-9 and a-f). -/
def isLowerHexDigit (c : Char) : Bool :=
  (48 ≤ c.toNat && c.toNat ≤ 57) || (97 ≤ c.toNat && c.toNat ≤ 102)

/-- Concrete identity used by the witnesses. -/
def demoUser : User :=
  { id := 1
    username := "alice"
    email := "alice@example.com"
    password := "00000000.abcd"
    fullName := none
    country := "NG"
    isAdmin := false
    isEmailVerified := false
    verificationToken := none
    verificationTokenExpiry := none
    bankDetails := none
    createdAt := 0 }

/-- Concrete identity whose stored verifier matches `secret123`. -/
def demoLoginUser : User :=
  { demoUser with password := hashPassword scryptDemo "secret123" [1, 2, 3, 4] }

/-- Concrete registration input used by the witnesses. -/
def demoInsertUser : InsertUser :=
  { username := "bob"
    email := "bob@example.com"
    password := "hunter22"
    fullName := none
    country := "NG"
    bankDetails := none }

/-- Concrete identity holding a token that expired at time 5. -/
def demoExpiredUser : User :=
  { demoUser with verificationToken := some "tok", verificationTokenExpiry := some 5 }

/-- Concrete identity whose email is already verified. -/
def demoVerifiedUser : User :=
  { demoUser with isEmailVerified := true }

/-- Concrete 32-byte random draw used by the witnesses. -/
def demoTokenBytes : List Nat := List.replicate 32 171

end BetCode

namespace BetCode

theorem hexCharVal_hexDigit : ∀ n < 16, hexCharVal (hexDigit n) = some n := by
  decide

theorem hexDigit_ne_dot : ∀ n < 16, hexDigit n ≠ '.' := by
  decide

theorem hexDecodeChars_hexCharsOfBytes (bs : List Nat)
    (hb : ∀ b ∈ bs, b < 256) :
    hexDecodeChars (hexCharsOfBytes bs) = bs := by
  induction bs with
  | nil => rfl
  | cons b bs ih =>
    have hblt : b < 256 := hb b (List.mem_cons_self b bs)
    have h1 : b / 16 < 16 := Nat.div_lt_of_lt_mul (by omega)
    have h2 : b % 16 < 16 := Nat.mod_lt _ (by omega)
    simp only [hexCharsOfBytes, hexDecodeChars,
      hexCharVal_hexDigit _ h1, hexCharVal_hexDigit _ h2]
    rw [ih (fun x hx => hb x (List.mem_cons_of_mem _ hx))]
    congr 1
    omega

theorem mem_hexCharsOfBytes {c : Char} {bs : List Nat}
    (hb : ∀ b ∈ bs, b < 256) (hc : c ∈ hexCharsOfBytes bs) :
    ∃ n, n < 16 ∧ c = hexDigit n := by
  induction bs with
  | nil => simp [hexCharsOfBytes] at hc
  | cons b bs ih =>
    have hblt : b < 256 := hb b (List.mem_cons_self b bs)
    simp only [hexCharsOfBytes, List.mem_cons] at hc
    rcases hc with h | h | h
    · exact ⟨b / 16, Nat.div_lt_of_lt_mul (by omega), h⟩
    · exact ⟨b % 16, Nat.mod_lt _ (by omega), h⟩
    · exact ih (fun x hx => hb x (List.mem_cons_of_mem _ hx)) h

theorem dot_not_mem_hexCharsOfBytes {bs : List Nat}
    (hb : ∀ b ∈ bs, b < 256) : '.' ∉ hexCharsOfBytes bs := by
  intro hmem
  obtain ⟨n, hn, hc⟩ := mem_hexCharsOfBytes hb hmem
  exact hexDigit_ne_dot n hn hc.symm

theorem splitCharAux_not_mem (sep : Char) (l : List Char)
    (h : sep ∉ l) (acc : List Char) :
    splitCharAux sep l acc = [acc.reverse ++ l] := by
  induction l generalizing acc with
  | nil => simp [splitCharAux]
  | cons c cs ih =>
    have hcne : c ≠ sep := fun he => h (he ▸ List.mem_cons_self c cs)
    have hcs : sep ∉ cs := fun hm => h (List.mem_cons_of_mem _ hm)
    simp [splitCharAux, hcne, ih hcs]

theorem splitCharAux_append (sep : Char) (l1 l2 : List Char)
    (h1 : sep ∉ l1) (acc : List Char) :
    splitCharAux sep (l1 ++ sep :: l2) acc =
      (acc.reverse ++ l1) :: splitCharAux sep l2 [] := by
  induction l1 generalizing acc with
  | nil => simp [splitCharAux]
  | cons c cs ih =>
    have hcne : c ≠ sep := fun he => h1 (he ▸ List.mem_cons_self c cs)
    have hcs : sep ∉ cs := fun hm => h1 (List.mem_cons_of_mem _ hm)
    simp [splitCharAux, hcne, ih hcs]

theorem hashPassword_data (f : String → String → List Nat) (p : String)
    (sb : List Nat) :
    (hashPassword f p sb).data
      = hexCharsOfBytes (f p (toHex sb)) ++ '.' :: hexCharsOfBytes sb := by
  show (String.append (String.append (toHex (f p (toHex sb))) ".") (toHex sb)).data = _
  simp [String.append, toHex]

theorem jsSplit_hashPassword (f : String → String → List Nat) (p : String)
    (sb : List Nat)
    (hkey : ∀ b ∈ f p (toHex sb), b < 256)
    (hsalt : ∀ b ∈ sb, b < 256) :
    jsSplit (hashPassword f p sb) '.' = [toHex (f p (toHex sb)), toHex sb] := by
  unfold jsSplit
  rw [hashPassword_data,
    splitCharAux_append _ _ _ (dot_not_mem_hexCharsOfBytes hkey),
    splitCharAux_not_mem _ _ (dot_not_mem_hexCharsOfBytes hsalt)]
  simp [toHex]

/-- **C1.** For every plaintext `p`, every salt drawn at hashing time and
every scrypt key whose bytes are genuine bytes, verifying `p` against the
verifier produced by hashing `p` succeeds:
`comparePasswords p (hashPassword p)` returns `true`.  The hash emits
`hex(scrypt(p, salt, 64)) ++ "." ++ salt`; verification splits at the
delimiter, re-derives with the stored salt and compares the derived
keys. -/
theorem comparePasswords_hashPassword_ok (f : String → String → List Nat)
    (p : String) (sb : List Nat)
    (hkey : ∀ b ∈ f p (toHex sb), b < 256)
    (hsalt : ∀ b ∈ sb, b < 256) :
    comparePasswords f p (hashPassword f p sb) = .ok true := by
  simp only [comparePasswords, jsSplit_hashPassword f p sb hkey hsalt]
  rw [show bufferFromHex (toHex (f p (toHex sb))) = f p (toHex sb) from
    hexDecodeChars_hexCharsOfBytes _ hkey]
  simp [timingSafeEqual]

/-- Witness for C1 at the concrete password `secret123` and salt bytes
`[1, 2, 3, 4]`. -/
theorem comparePasswords_hashPassword_ok_witness :
    comparePasswords scryptDemo "secret123"
      (hashPassword scryptDemo "secret123" [1, 2, 3, 4]) = .ok true :=
  comparePasswords_hashPassword_ok scryptDemo "secret123" [1, 2, 3, 4]
    (by decide) (by decide)

/-- **C2.** For every supplied plaintext and every stored verifier that
contains no dot delimiter, `comparePasswords` does NOT return `false`: the
destructured `salt` is `undefined`, so the `scrypt` call throws a
`TypeError` that rejects the surrounding promise.  This contradicts the
spec, which requires a hard verification failure rather than an
exception. -/
theorem comparePasswords_missing_delimiter_thrown
    (f : String → String → List Nat) (supplied stored : String)
    (h : '.' ∉ stored.data) :
    comparePasswords f supplied stored
      = .thrown "TypeError: The salt argument must be of type string" := by
  have hsplit : jsSplit stored '.' = [stored] := by
    unfold jsSplit
    rw [splitCharAux_not_mem _ _ h]
    simp
  simp [comparePasswords, hsplit]

/-- Witness for C2 at the malformed stored verifier `deadbeef` (no dot). -/
theorem comparePasswords_missing_delimiter_thrown_witness :
    comparePasswords scryptDemo "secret123" "deadbeef"
      = .thrown "TypeError: The salt argument must be of type string" :=
  comparePasswords_missing_delimiter_thrown scryptDemo "secret123" "deadbeef"
    (by decide)

end BetCode

namespace BetCode

/-- **C3.** For every login attempt, if the handle has no matching
identity, or the identity exists but password verification fails (the
comparison completes and returns false), the two failure runs produce
indistinguishable responses: same status 401 and same generic message, so
the caller cannot tell an unknown handle from a wrong password. -/
theorem login_failures_indistinguishable (f : String → String → List Nat)
    (creds : LoginCreds) (u : User)
    (hvalid : loginCredsValid creds = true)
    (hcmp : comparePasswords f creds.password u.password = .ok false) :
    loginRoute f none creds = loginRoute f (some u) creds ∧
    loginRoute f (some u) creds
      = .rejected 401 "Invalid username or password" := by
  have hne : "Invalid username or password".isEmpty = false := by decide
  simp [loginRoute, localStrategy, hvalid, hcmp, hne]

/-- Witness for C3: logging in as `alice`/`secret123` against no stored
identity and against `demoUser` (whose verifier encodes a different key)
yields the same 401 response. -/
theorem login_failures_indistinguishable_witness :
    loginRoute scryptDemo none ⟨"alice", "secret123"⟩
      = loginRoute scryptDemo (some demoUser) ⟨"alice", "secret123"⟩ ∧
    loginRoute scryptDemo (some demoUser) ⟨"alice", "secret123"⟩
      = .rejected 401 "Invalid username or password" :=
  login_failures_indistinguishable scryptDemo ⟨"alice", "secret123"⟩ demoUser
    (by decide) (by decide)

/-- **C4 counterexample.** The claimed invariant does not survive the
admin user-update operation: `PATCH /api/admin/users/:id` forwards the
raw request body to `updateUser`, so a body setting only
`verificationToken` leaves the token non-null while the expiry stays
null. -/
theorem token_expiry_invariant_ce :
    tokenExpirySynced demoUser = true ∧
    tokenExpirySynced
      (applyUserPatch demoUser { verificationToken := some (some "forced") })
      = false := by
  decide

/-- **C4 amended.** After registration (both the insert and the token
update), resend-verification, email verification and profile update, the
verification token and its expiry are null together; the admin user
update preserves the pairing only when the request body omits both
verification columns or sets both with matching nullness. -/
theorem token_expiry_invariant_amended
    (iu : InsertUser) (uid now : Nat) (u : User) (token : String)
    (f b : Option (Option String)) (p : UserPatch)
    (hu : tokenExpirySynced u = true) (hp : patchTokenSynced p = true) :
    tokenExpirySynced (createUser iu uid now) = true ∧
    tokenExpirySynced (registerTokenUpdate (createUser iu uid now) token now)
      = true ∧
    tokenExpirySynced (resendTokenUpdate u token now) = true ∧
    tokenExpirySynced (verifyEmailUpdate u) = true ∧
    tokenExpirySynced (profileUpdate u f b) = true ∧
    tokenExpirySynced (applyUserPatch u p) = true := by
  refine ⟨rfl, rfl, rfl, rfl, ?_, ?_⟩
  · simpa [tokenExpirySynced, profileUpdate] using hu
  · have hu' : u.verificationToken.isNone = u.verificationTokenExpiry.isNone := by
      simpa [tokenExpirySynced] using hu
    unfold patchTokenSynced at hp
    rcases hvt : p.verificationToken with _ | t <;>
      rcases hve : p.verificationTokenExpiry with _ | e <;>
        simp [hvt, hve, tokenExpirySynced, applyUserPatch] at hp ⊢
    · exact hu'
    · exact hp

/-- Witness for C4 amended, at `demoUser` and the empty admin patch. -/
theorem token_expiry_invariant_amended_witness :
    tokenExpirySynced (createUser demoInsertUser 7 0) = true ∧
    tokenExpirySynced (registerTokenUpdate (createUser demoInsertUser 7 0) "tok" 0)
      = true ∧
    tokenExpirySynced (resendTokenUpdate demoUser "tok" 0) = true ∧
    tokenExpirySynced (verifyEmailUpdate demoUser) = true ∧
    tokenExpirySynced (profileUpdate demoUser none none) = true ∧
    tokenExpirySynced (applyUserPatch demoUser {}) = true :=
  token_expiry_invariant_amended demoInsertUser 7 0 demoUser "tok" none none {}
    (by decide) (by decide)

/-- **C5.** Every issued verification token is the hex encoding of 32
random bytes — a fixed-length string of 64 lower-case hexadecimal
characters (256 random bits) — and the paired expiry is the issuance time
plus exactly 24 hours. -/
theorem hexCharsOfBytes_length (bs : List Nat) :
    (hexCharsOfBytes bs).length = 2 * bs.length := by
  induction bs with
  | nil => rfl
  | cons b bs ih => simp [hexCharsOfBytes, ih]; omega

theorem isLowerHexDigit_hexDigit : ∀ n < 16, isLowerHexDigit (hexDigit n) = true := by
  decide

theorem verification_token_format (bytes : List Nat) (now : Nat)
    (hlen : bytes.length = 32) (hb : ∀ b ∈ bytes, b < 256) :
    (generateVerificationToken bytes).length = 64 ∧
    (∀ c ∈ (generateVerificationToken bytes).data, isLowerHexDigit c = true) ∧
    (issueVerification bytes now).2 = now + 24 * 60 * 60 * 1000 := by
  refine ⟨?_, ?_, rfl⟩
  · show (hexCharsOfBytes bytes).length = 64
    rw [hexCharsOfBytes_length, hlen]
  · intro c hc
    obtain ⟨n, hn, rfl⟩ := mem_hexCharsOfBytes hb hc
    exact isLowerHexDigit_hexDigit n hn

/-- Witness for C5 at a concrete 32-byte draw and issuance time 1000. -/
theorem verification_token_format_witness :
    (generateVerificationToken demoTokenBytes).length = 64 ∧
    (∀ c ∈ (generateVerificationToken demoTokenBytes).data,
      isLowerHexDigit c = true) ∧
    (issueVerification demoTokenBytes 1000).2 = 1000 + 24 * 60 * 60 * 1000 :=
  verification_token_format demoTokenBytes 1000 (by decide) (by decide)

/-- **C6.** A verification request whose token matches an identity whose
stored expiry is strictly before the current time is rejected (status
400, expired page) without marking the identity verified — no update is
issued — and this rejection is distinct from the 404 not-found rejection
returned when the token matches no identity. -/
theorem expired_token_rejection_distinct (t : String) (u : User)
    (rest : List User) (now e : Nat)
    (he : u.verificationTokenExpiry = some e) (hlt : e < now) :
    verifyEmailHandler (some t) (u :: rest) now
      = ⟨400, "Verification Link Expired", none⟩ ∧
    verifyEmailHandler (some t) [] now
      = ⟨404, "Invalid Verification Link", none⟩ ∧
    verifyEmailHandler (some t) (u :: rest) now
      ≠ verifyEmailHandler (some t) [] now := by
  have h1 : verifyEmailHandler (some t) (u :: rest) now
      = ⟨400, "Verification Link Expired", none⟩ := by
    simp [verifyEmailHandler, he, hlt]
  have h2 : verifyEmailHandler (some t) [] now
      = ⟨404, "Invalid Verification Link", none⟩ := rfl
  refine ⟨h1, h2, ?_⟩
  rw [h1, h2]
  decide

/-- Witness for C6: `demoExpiredUser` holds a token that expired at time
5, presented at time 10. -/
theorem expired_token_rejection_distinct_witness :
    verifyEmailHandler (some "tok") [demoExpiredUser] 10
      = ⟨400, "Verification Link Expired", none⟩ ∧
    verifyEmailHandler (some "tok") [] 10
      = ⟨404, "Invalid Verification Link", none⟩ ∧
    verifyEmailHandler (some "tok") [demoExpiredUser] 10
      ≠ verifyEmailHandler (some "tok") [] 10 :=
  expired_token_rejection_distinct "tok" demoExpiredUser [] 10 5 (by decide)
    (by decide)

end BetCode

namespace BetCode

/-- **C7.** The `requireAdmin` gate passes if and only if the session is
authenticated and the attached identity's administrator flag is true;
applied to an authenticated non-admin identity it yields the
forbidden-access result (403 Forbidden), not the unauthorized-access
result `requireAuth` emits, and the guarded operation is not invoked
(the gate does not proceed). -/
theorem requireAdmin_gate_spec (isAuth : Bool) (u : User) :
    (requireAdmin isAuth u = .proceed ↔ (isAuth = true ∧ u.isAdmin = true)) ∧
    requireAdmin true { u with isAdmin := false } = .reject 403 "Forbidden" ∧
    requireAdmin true { u with isAdmin := false } ≠ .proceed ∧
    requireAdmin true { u with isAdmin := false } ≠ requireAuth false := by
  refine ⟨?_, rfl, ?_, ?_⟩
  · cases isAuth <;> cases h : u.isAdmin <;> simp [requireAdmin, h]
  · simp [requireAdmin]
  · simp [requireAdmin, requireAuth]

/-- **C8.** A resend-verification call by an authenticated identity whose
email-verified flag is already true is rejected with 400 before any token
is generated: the stored record, in particular its verification token and
expiry, is unchanged by the call. -/
theorem resend_already_verified_rejected (u : User) (tokenBytes : List Nat)
    (now : Nat) (hv : u.isEmailVerified = true) :
    resendVerificationHandler true u tokenBytes now
      = ⟨400, "Your email is already verified", u⟩ ∧
    (resendVerificationHandler true u tokenBytes now).user.verificationToken
      = u.verificationToken ∧
    (resendVerificationHandler true u tokenBytes now).user.verificationTokenExpiry
      = u.verificationTokenExpiry := by
  have h : resendVerificationHandler true u tokenBytes now
      = ⟨400, "Your email is already verified", u⟩ := by
    simp [resendVerificationHandler, hv]
  exact ⟨h, by rw [h], by rw [h]⟩

/-- Witness for C8 at `demoVerifiedUser`. -/
theorem resend_already_verified_rejected_witness :
    resendVerificationHandler true demoVerifiedUser demoTokenBytes 0
      = ⟨400, "Your email is already verified", demoVerifiedUser⟩ ∧
    (resendVerificationHandler true demoVerifiedUser demoTokenBytes 0).user.verificationToken
      = demoVerifiedUser.verificationToken ∧
    (resendVerificationHandler true demoVerifiedUser demoTokenBytes 0).user.verificationTokenExpiry
      = demoVerifiedUser.verificationTokenExpiry :=
  resend_already_verified_rejected demoVerifiedUser demoTokenBytes 0 (by decide)

/-- **C9.** For every registration input, the record created by
`createUser` has `isAdmin = false`: the insert schema omits `isAdmin`
from accepted input (the `InsertUser` type has no such field) and
`createUser` writes `false`, so registration can never create an
administrator account. -/
theorem createUser_isAdmin_false (iu : InsertUser) (newId now : Nat) :
    (createUser iu newId now).isAdmin = false := rfl

/-- **C10.** Every successful user payload of the login, current-user,
registration and profile-update operations is the password-stripped
record (`UserResponse` has no password field), and stripping is
independent of the stored verifier: two runs differing only in the
stored verifier produce identical response bodies. -/
theorem user_responses_omit_verifier (f : String → String → List Nat)
    (creds : LoginCreds) (u : User) (p2 : String) (r : UserResponse)
    (fopt bopt : Option (Option String)) (iu : InsertUser)
    (tb sb : List Nat) (uid now : Nat)
    (hlogin : loginRoute f (some u) creds = .success r) :
    r = stripPassword u ∧
    stripPassword { u with password := p2 } = stripPassword u ∧
    currentUserHandler true u = (200, some (stripPassword u)) ∧
    (registerHandler f iu none none tb sb uid now).1.body
      = some (stripPassword
          (createUser { iu with password := hashPassword f iu.password sb } uid now)) ∧
    (profileUpdateHandler u fopt bopt).2
      = some (stripPassword (profileUpdate u fopt bopt)) ∧
    stripPassword (profileUpdate { u with password := p2 } fopt bopt)
      = stripPassword (profileUpdate u fopt bopt) := by
  refine ⟨?_, rfl, rfl, rfl, rfl, rfl⟩
  by_cases hval : loginCredsValid creds = true
  · simp only [loginRoute, hval, if_true] at hlogin
    cases hc : comparePasswords f creds.password u.password with
    | ok b =>
      cases b
      · simp [localStrategy, hc] at hlogin
      · simp [localStrategy, hc] at hlogin
        exact hlogin.symm
    | thrown e => simp [localStrategy, hc] at hlogin
  · simp [loginRoute, hval] at hlogin

/-- Witness for C10: a successful login of `alice`/`secret123` against
`demoLoginUser`. -/
theorem user_responses_omit_verifier_witness :
    stripPassword demoLoginUser = stripPassword demoLoginUser ∧
    stripPassword { demoLoginUser with password := "x" }
      = stripPassword demoLoginUser ∧
    currentUserHandler true demoLoginUser
      = (200, some (stripPassword demoLoginUser)) ∧
    (registerHandler scryptDemo demoInsertUser none none [5] [1, 2] 7 0).1.body
      = some (stripPassword
          (createUser
            { demoInsertUser with
                password := hashPassword scryptDemo demoInsertUser.password [1, 2] }
            7 0)) ∧
    (profileUpdateHandler demoLoginUser none none).2
      = some (stripPassword (profileUpdate demoLoginUser none none)) ∧
    stripPassword (profileUpdate { demoLoginUser with password := "x" } none none)
      = stripPassword (profileUpdate demoLoginUser none none) :=
  user_responses_omit_verifier scryptDemo ⟨"alice", "secret123"⟩ demoLoginUser
    "x" (stripPassword demoLoginUser) none none demoInsertUser [5] [1, 2] 7 0
    (by decide)

end BetCode
